import Mathlib

/-!
Shallow embedding of `src/scripts/models.py` (looped-transformer models).

Tensors of shape [B, n, d] are modelled as functions `Fin B → Fin n → Fin d → ℚ`
(exact rational entries stand for the framework's floating-point numbers; all
claims settled here are structural / algebraic, not about rounding).  The GPT-2
and Mamba backbone blocks, declared out of scope by the spec, are opaque
function parameters of the model structures.  The random draws produced by
`torch.rand_like` are passed in explicitly (one tensor per call), so stochastic
behaviour is a function of the explicit random input.  Python exceptions are
modelled with `Except PyErr`.
-/

namespace LoopedTF

/-- A tensor of shape [B, n]. -/
abbrev Tensor2 (B n : ℕ) := Fin B → Fin n → ℚ

/-- A tensor of shape [B, n, d]. -/
abbrev Tensor3 (B n d : ℕ) := Fin B → Fin n → Fin d → ℚ

/-- Python exceptions that the embedded code can raise:
`NotImplementedError` (the explicit `raise NotImplementedError` branches) and
`AttributeError` (raised by `nn.Module.__getattr__` when an attribute such as
`_read_out` was never assigned). -/
inductive PyErr where
  | notImplemented : PyErr
  | attributeError : String → PyErr
  deriving DecidableEq

/-- The dynamically-typed result of prediction extraction:
`prediction[:, 0::2, 0]` is a 2-D tensor [B, n] (regression path) and
`prediction[:, 0::2]` is a 3-D tensor [B, n, m] (classification path keeps the
trailing logit dimension). -/
inductive PredT (B n : ℕ) where
  | t2 : Tensor2 B n → PredT B n
  | t3 : (m : ℕ) → Tensor3 B n m → PredT B n

/-- The `_read_out` linear layer created in `__init__`:
`nn.Linear(n_embd, 1)` for `pred_type == "regression"`,
`nn.Linear(n_embd, MAX_NUM_CLASS)` (`MAX_NUM_CLASS = 2`) for
`pred_type == "classification"`.  Weight `w j k` multiplies input coordinate
`k` for output coordinate `j`; `b` is the bias. -/
inductive ReadOut (d : ℕ) where
  | reg : (Fin 1 → Fin d → ℚ) → (Fin 1 → ℚ) → ReadOut d
  | cls : (Fin 2 → Fin d → ℚ) → (Fin 2 → ℚ) → ReadOut d

/-- Token position `2*i` of the interleaved sequence (a feature token). -/
def evenIdx {n : ℕ} (i : Fin n) : Fin (2 * n) :=
  ⟨2 * i.val, by omega⟩

/-- Token position `2*i + 1` of the interleaved sequence (a label token). -/
def oddIdx {n : ℕ} (i : Fin n) : Fin (2 * n) :=
  ⟨2 * i.val + 1, by omega⟩

/-- `TransformerModel._combine` (models.py lines 112-132), line-identical to
`MambaModel._combine` (lines 345-365).

`ys_b_wide = torch.cat((ys_b.view(B, n, 1), torch.zeros(B, n, d - 1)), axis=2)`
places the label at coordinate 0 and zeros at coordinates 1..d-1;
`zs = torch.stack((xs_b, ys_b_wide), dim=2).view(B, 2*n, d)` is a row-major
reshape of the [B, n, 2, d] stack, so flat token index `t` reads slot `t % 2`
of step `t / 2`. -/
def combine {B n d : ℕ} (xs_b : Tensor3 B n d) (ys_b : Tensor2 B n) :
    Tensor3 B (2 * n) d :=
  fun b t k =>
    if t.val % 2 = 0 then xs_b b ⟨t.val / 2, by omega⟩ k
    else if k.val = 0 then ys_b b ⟨t.val / 2, by omega⟩ else 0

/-- A per-token linear layer (`nn.Linear`): output coordinate `j` is
`∑ k, x k * W j k + bias j`. -/
def linear3 {B nn din dout : ℕ} (W : Fin dout → Fin din → ℚ) (bias : Fin dout → ℚ)
    (t : Tensor3 B nn din) : Tensor3 B nn dout :=
  fun b i j => (∑ k, t b i k * W j k) + bias j

/-- Applying `self._read_out` to a [B, nn, d] tensor.  The output width is 1
(regression layer) or 2 (classification layer); it is returned as `w + 1` so
that coordinate 0 always exists, as in the source where both layers have a
positive output width. -/
def applyRO {B nn d : ℕ} (ro : ReadOut d) (t : Tensor3 B nn d) :
    Σ w : ℕ, Tensor3 B nn (w + 1) :=
  match ro with
  | .reg w bias => ⟨0, linear3 w bias t⟩
  | .cls w bias => ⟨1, linear3 w bias t⟩

/-- The shared read-out + prediction-extraction tail of every forward pass
(models.py lines 151-157, 192-193, 290-296, 381-387, 446-452):
`prediction = self._read_out(f_output)` — an `AttributeError` if `_read_out`
was never created — then `y = prediction[:, self.ind::self.freq, 0]` for
regression, `y = prediction[:, self.ind::self.freq]` for classification
(`self.ind = 0`, `self.freq = 2`), and `raise NotImplementedError` for any
other `_pred_type`. -/
def readOutDispatch {B n d : ℕ} (ro? : Option (ReadOut d)) (pred_type : String)
    (f_output : Tensor3 B (2 * n) d) : Except PyErr (PredT B n) :=
  match ro? with
  | none => .error (.attributeError "_read_out")
  | some ro =>
    let p := applyRO ro f_output
    if pred_type = "regression" then
      .ok (.t2 (fun b i => p.2 b (evenIdx i) 0))
    else if pred_type = "classification" then
      .ok (.t3 (p.1 + 1) (fun b i k => p.2 b (evenIdx i) k))
    else .error .notImplemented

/-- `TransformerModel` (models.py lines 74-159): read-in projection, opaque
GPT-2 backbone (called with `add_inputs_embeds`, a `Bool` flag), and the
optional `_read_out` layer.  `pred_type` is kept as the raw string
`self._pred_type` since `forward` re-dispatches on it. -/
structure TFModel (B n d_in d : ℕ) where
  pred_type : String
  read_in_w : Fin d → Fin d_in → ℚ
  read_in_b : Fin d → ℚ
  backbone : Bool → Tensor3 B (2 * n) d → Tensor3 B (2 * n) d
  read_out : Option (ReadOut d)

/-- `TransformerModel.__init__` (lines 75-110): never raises; `_read_out` is
created only for `pred_type == "regression"` (width 1) or
`pred_type == "classification"` (width 2) — the `if/elif` has no `else`, so an
unknown `pred_type` leaves `_read_out` unset and construction succeeds.
`regW/regB` and `clsW/clsB` are the fresh weights `nn.Linear` would draw. -/
def TFModel.init {B n d_in d : ℕ} (pred_type : String)
    (riw : Fin d → Fin d_in → ℚ) (rib : Fin d → ℚ)
    (backbone : Bool → Tensor3 B (2 * n) d → Tensor3 B (2 * n) d)
    (regW : Fin 1 → Fin d → ℚ) (regB : Fin 1 → ℚ)
    (clsW : Fin 2 → Fin d → ℚ) (clsB : Fin 2 → ℚ) :
    Except PyErr (TFModel B n d_in d) :=
  .ok { pred_type := pred_type
        read_in_w := riw
        read_in_b := rib
        backbone := backbone
        read_out :=
          if pred_type = "regression" then some (.reg regW regB)
          else if pred_type = "classification" then some (.cls clsW clsB)
          else none }

/-- `TransformerModel.forward` (lines 134-159): combine, read in, one backbone
call (passing `add_inputs_embeds` through), then the shared read-out tail. -/
def TFModel.forward {B n d_in d : ℕ} (M : TFModel B n d_in d)
    (xs : Tensor3 B n d_in) (ys : Tensor2 B n) (add_inputs_embeds : Bool) :
    Except PyErr (PredT B n) :=
  let zs := combine xs ys
  let embeds := linear3 M.read_in_w M.read_in_b zs
  let f_output := M.backbone add_inputs_embeds embeds
  readOutDispatch M.read_out M.pred_type f_output

/-- `TransformerModelTying` (lines 162-195): built by `super().__init__` with
the default `pred_type="regression"`, so `_read_out` is always the width-1
regression layer; the backbone is rebuilt with `n_layer = 1` and is opaque
here.  Its `f` (lines 174-176) calls the backbone with `inputs_embeds` only,
every other argument at its default. -/
structure TyingModel (B n d_in d : ℕ) where
  n_layer : ℕ
  read_in_w : Fin d → Fin d_in → ℚ
  read_in_b : Fin d → ℚ
  backbone : Tensor3 B (2 * n) d → Tensor3 B (2 * n) d
  read_out_w : Fin 1 → Fin d → ℚ
  read_out_b : Fin 1 → ℚ

/-- `TransformerModelTying.f` (lines 174-176): one single-layer backbone call. -/
def TyingModel.f {B n d_in d : ℕ} (M : TyingModel B n d_in d)
    (output : Tensor3 B (2 * n) d) : Tensor3 B (2 * n) d :=
  M.backbone output

/-- The loop `for idx in range(k): output = self.f(output)` of
`TransformerModelTying.forward` (lines 190-191). -/
def tyingLoop {B n d_in d : ℕ} (M : TyingModel B n d_in d) :
    ℕ → Tensor3 B (2 * n) d → Tensor3 B (2 * n) d
  | 0, output => output
  | k + 1, output => tyingLoop M k (M.f output)

/-- `TransformerModelTying.forward` (lines 178-195).  The required
`add_inputs_embeds` argument appears in the signature but is never read. -/
def TyingModel.forward {B n d_in d : ℕ} (M : TyingModel B n d_in d)
    (xs : Tensor3 B n d_in) (ys : Tensor2 B n) (add_inputs_embeds : Bool) :
    Tensor2 B n :=
  let zs := combine xs ys
  let embeds := linear3 M.read_in_w M.read_in_b zs
  let output := tyingLoop M M.n_layer embeds
  let prediction := linear3 M.read_out_w M.read_out_b output
  fun b i => prediction b (evenIdx i) 0

/-- The weight-tied forward as the spec states it (section 4.4): the
single-layer backbone self-composed `n_layer` times on the embeddings
(`Function.iterate`), read-out applied once to the final output, predictions
sliced at the feature positions. -/
def tyingSpecForward {B n d_in d : ℕ} (M : TyingModel B n d_in d)
    (xs : Tensor3 B n d_in) (ys : Tensor2 B n) : Tensor2 B n :=
  fun b i =>
    linear3 M.read_out_w M.read_out_b
      (M.backbone^[M.n_layer] (linear3 M.read_in_w M.read_in_b (combine xs ys)))
      b (evenIdx i) 0

/-- `dynamic_mask` (lines 198-200): `mask = torch.rand_like(tensor) >= p;
return tensor * mask`.  The uniform draw `torch.rand_like(tensor)` is the
explicit argument `r`; the boolean mask multiplies as 1/0. -/
def dynamic_mask {B nn d : ℕ} (tensor : Tensor3 B nn d) (p : ℚ)
    (r : Tensor3 B nn d) : Tensor3 B nn d :=
  fun b i k => tensor b i k * (if p ≤ r b i k then 1 else 0)

/-- `TransformerModelLooped` (lines 203-302): configuration flags plus the
learned pieces (read-in weights, opaque backbone called at default arguments,
optional `_read_out` from the base-class constructor). -/
structure LoopedModel (B n d_in d : ℕ) where
  loop_func : String
  pred_type : String
  apply_input_mask : Bool
  p : ℚ
  truncate_state : Bool
  p_state : ℚ
  fixed_truncate : Bool
  tokens_to_trunc : ℕ
  read_in_w : Fin d → Fin d_in → ℚ
  read_in_b : Fin d → ℚ
  backbone : Tensor3 B (2 * n) d → Tensor3 B (2 * n) d
  read_out : Option (ReadOut d)

/-- The input-masking prefix of `TransformerModelLooped.f` (lines 240-243):
when `apply_input_mask`, apply `dynamic_mask` with the fresh draw `r`, and when
additionally `loop_func == "z=f(x*z)"` remap every element equal to 0 to 1
(`torch.where(embeds == 0, torch.ones_like(embeds), embeds)`). -/
def maskedEmbeds {B n d_in d : ℕ} (M : LoopedModel B n d_in d)
    (embeds r : Tensor3 B (2 * n) d) : Tensor3 B (2 * n) d :=
  if M.apply_input_mask then
    let e := dynamic_mask embeds M.p r
    if M.loop_func = "z=f(x*z)" then
      fun b i k => if e b i k = 0 then 1 else e b i k
    else e
  else embeds

/-- The state-truncation step of `TransformerModelLooped.f` (lines 246-253):
when `truncate_state`, zero the first `tokens_to_trunc` token positions of
`output`, where `tokens_to_trunc` is recomputed as `math.ceil(n * p_state)`
from the current token count `n = output.shape[1] = 2*n` unless
`fixed_truncate`.  The ones-mask with its first rows set to 0 multiplies
elementwise. -/
def truncatedState {B n d_in d : ℕ} (M : LoopedModel B n d_in d)
    (output : Tensor3 B (2 * n) d) : Tensor3 B (2 * n) d :=
  if M.truncate_state then
    let K := if M.fixed_truncate then M.tokens_to_trunc
             else Nat.ceil ((2 * n : ℚ) * M.p_state)
    fun b i k => output b i k * (if i.val < K then 0 else 1)
  else output

/-- `TransformerModelLooped.f` (lines 231-261): mask the embeddings, truncate
the state, then one backbone call on `output + embeds` (additive) or
`output * embeds` (multiplicative); any other `loop_func` raises
`NotImplementedError`. -/
def loopedF {B n d_in d : ℕ} (M : LoopedModel B n d_in d)
    (output embeds r : Tensor3 B (2 * n) d) :
    Except PyErr (Tensor3 B (2 * n) d) :=
  let e := maskedEmbeds M embeds r
  let o := truncatedState M output
  if M.loop_func = "z=f(x+z)" then
    .ok (M.backbone (fun b i k => o b i k + e b i k))
  else if M.loop_func = "z=f(x*z)" then
    .ok (M.backbone (fun b i k => o b i k * e b i k))
  else .error .notImplemented

/-- Initial-state selection of `TransformerModelLooped.forward`
(lines 274-281): `torch.zeros_like(embeds)` for the additive loop function,
`torch.ones_like(embeds)` for the multiplicative one, otherwise
`raise NotImplementedError`. -/
def initState {B n d_in d : ℕ} (M : LoopedModel B n d_in d) :
    Except PyErr (Tensor3 B (2 * n) d) :=
  if M.loop_func = "z=f(x+z)" then .ok (fun _ _ _ => 0)
  else if M.loop_func = "z=f(x*z)" then .ok (fun _ _ _ => 1)
  else .error .notImplemented

/-- The read-in embeddings of a looped forward call (lines 272-273):
`embeds = self._read_in(self._combine(xs, ys))`. -/
def embedsOf {B n d_in d : ℕ} (M : LoopedModel B n d_in d)
    (xs : Tensor3 B n d_in) (ys : Tensor2 B n) : Tensor3 B (2 * n) d :=
  linear3 M.read_in_w M.read_in_b (combine xs ys)

/-- The loop `for idx in range(n_loops)` of `TransformerModelLooped.forward`
(lines 283-302), recursing on the number of remaining iterations with the
current `idx` carried explicitly: every iteration updates
`output = self.f(output, embeds)` with the fresh draw `rng idx`; iterations
with `idx < n_loop_start` (warm-up, under `torch.no_grad()`, which does not
change the numeric value) record nothing; later iterations append
`y = prediction[:, 0::2, ...]` from `self._read_out(output)`.  Any raise
aborts the whole call. -/
def loopGo {B n d_in d : ℕ} (M : LoopedModel B n d_in d)
    (embeds : Tensor3 B (2 * n) d) (rng : ℕ → Tensor3 B (2 * n) d)
    (n_loop_start : ℕ) :
    ℕ → ℕ → Tensor3 B (2 * n) d → Except PyErr (List (PredT B n))
  | 0, _, _ => .ok []
  | remaining + 1, idx, output =>
    match loopedF M output embeds (rng idx) with
    | .error e => .error e
    | .ok output' =>
      if idx < n_loop_start then
        loopGo M embeds rng n_loop_start remaining (idx + 1) output'
      else
        match readOutDispatch M.read_out M.pred_type output' with
        | .error e => .error e
        | .ok y =>
          match loopGo M embeds rng n_loop_start remaining (idx + 1) output' with
          | .error e => .error e
          | .ok rest => .ok (y :: rest)

/-- `TransformerModelLooped.forward` (lines 263-302): combine and read in,
select the initial state by `loop_func`, then run the loop from `idx = 0`,
returning the list of recorded predictions.  `rng idx` is the fresh
`torch.rand_like` draw consumed by iteration `idx` when input masking is on. -/
def loopedForward {B n d_in d : ℕ} (M : LoopedModel B n d_in d)
    (xs : Tensor3 B n d_in) (ys : Tensor2 B n)
    (n_loop_start n_loops : ℕ) (rng : ℕ → Tensor3 B (2 * n) d) :
    Except PyErr (List (PredT B n)) :=
  match initState M with
  | .error e => .error e
  | .ok output0 =>
    loopGo M (embedsOf M xs ys) rng n_loop_start n_loops 0 output0

/-- The state trajectory of a (valid-configuration) looped forward call:
`stateN M embeds rng k` is the recurrent state after `k` loop iterations,
reading `stateN 0` off `initState` and each step off `loopedF` (the `getD`
defaults are never reached when `loop_func` is one of the two supported
values). -/
def stateN {B n d_in d : ℕ} (M : LoopedModel B n d_in d)
    (embeds : Tensor3 B (2 * n) d) (rng : ℕ → Tensor3 B (2 * n) d) :
    ℕ → Tensor3 B (2 * n) d
  | 0 => ((initState M).toOption).getD (fun _ _ _ => 0)
  | k + 1 =>
    ((loopedF M (stateN M embeds rng k) embeds (rng k)).toOption).getD
      (stateN M embeds rng k)

/-! Concrete instances at the smallest shapes (B = n = d_in = d = 1), used to
instantiate theorems with hypotheses on explicit inputs. -/

/-- Batch index 0. -/
def b0 : Fin 1 := ⟨0, by norm_num⟩

/-- Token index 0 of the interleaved sequence for n = 1. -/
def t0 : Fin (2 * 1) := ⟨0, by norm_num⟩

/-- Coordinate index 0. -/
def k0 : Fin 1 := ⟨0, by norm_num⟩

/-- The all-zero [1, 2, 1] tensor. -/
def e0 : Tensor3 1 (2 * 1) 1 := fun _ _ _ => 0

/-- The all-one [1, 2, 1] tensor (also used as a `torch.rand_like` draw). -/
def r1 : Tensor3 1 (2 * 1) 1 := fun _ _ _ => 1

/-- A random stream that always draws the all-one tensor. -/
def rng0 : ℕ → Tensor3 1 (2 * 1) 1 := fun _ => r1

/-- The all-zero [1, 1, 1] feature batch. -/
def xs0 : Tensor3 1 1 1 := fun _ _ _ => 0

/-- The all-zero [1, 1] label batch. -/
def ys0 : Tensor2 1 1 := fun _ _ => 0

/-- A width-1 all-one linear weight. -/
def w11 : Fin 1 → Fin 1 → ℚ := fun _ _ => 1

/-- A width-1 zero bias. -/
def b1q : Fin 1 → ℚ := fun _ => 0

/-- A width-2 all-one linear weight. -/
def w21 : Fin 2 → Fin 1 → ℚ := fun _ _ => 1

/-- A width-2 zero bias. -/
def b2q : Fin 2 → ℚ := fun _ => 0

/-- A concrete regression read-out layer. -/
def roReg : ReadOut 1 := .reg w11 b1q

/-- A concrete GPT-2 backbone stub for the plain model: the identity on the
embeddings, whatever the `add_inputs_embeds` flag. -/
def tfBB : Bool → Tensor3 1 (2 * 1) 1 → Tensor3 1 (2 * 1) 1 := fun _ t => t

/-- A valid looped model: additive loop function, regression read-out, both
stochastic perturbations off, identity backbone. -/
def M0loop : LoopedModel 1 1 1 1 :=
  { loop_func := "z=f(x+z)"
    pred_type := "regression"
    apply_input_mask := false
    p := 0
    truncate_state := false
    p_state := 0
    fixed_truncate := false
    tokens_to_trunc := 0
    read_in_w := w11
    read_in_b := b1q
    backbone := id
    read_out := some roReg }

/-- A looped model with input masking on, multiplicative loop function and
mask probability 1/2. -/
def Mmask : LoopedModel 1 1 1 1 :=
  { M0loop with loop_func := "z=f(x*z)", apply_input_mask := true, p := 1/2 }

/-- A looped model with state truncation on, in fixed mode, zeroing 1 leading
token position. -/
def Mtrunc : LoopedModel 1 1 1 1 :=
  { M0loop with truncate_state := true, fixed_truncate := true,
                tokens_to_trunc := 1 }

/-- A looped model with an unsupported loop function string. -/
def Mbad : LoopedModel 1 1 1 1 :=
  { M0loop with loop_func := "z=g(x,z)" }

/-- The plain transformer model an unknown `pred_type` string produces:
`_read_out` was never assigned. -/
def MtfBad : TFModel 1 1 1 1 :=
  { pred_type := "linear"
    read_in_w := w11
    read_in_b := b1q
    backbone := tfBB
    read_out := none }

end LoopedTF

namespace LoopedTF

/-! Helper lemmas shared by several claim theorems. -/

/-- With input masking off, `f` leaves the embeddings untouched. -/
theorem maskedEmbeds_off {B n d_in d : ℕ} (M : LoopedModel B n d_in d)
    (hm : M.apply_input_mask = false) (e r : Tensor3 B (2 * n) d) :
    maskedEmbeds M e r = e := by
  simp [maskedEmbeds, hm]

/-- With state truncation off, `f` leaves the state untouched. -/
theorem truncatedState_off {B n d_in d : ℕ} (M : LoopedModel B n d_in d)
    (ht : M.truncate_state = false) (o : Tensor3 B (2 * n) d) :
    truncatedState M o = o := by
  simp [truncatedState, ht]

/-- C1: for every feature batch [B,n,d] with d ≥ 1 and label batch [B,n], the
combiner's output (of shape [B, 2n, d] by the type of `combine`) has each even
position `2i` equal to the i-th feature vector, and each odd position `2i+1`
equal to the i-th label at coordinate 0 and zero at every other coordinate. -/
theorem combine_interleaves {B n d : ℕ} (hd : 1 ≤ d)
    (xs : Tensor3 B n d) (ys : Tensor2 B n) :
    (∀ (b : Fin B) (i : Fin n) (k : Fin d),
        combine xs ys b (evenIdx i) k = xs b i k) ∧
    (∀ (b : Fin B) (i : Fin n) (k : Fin d),
        combine xs ys b (oddIdx i) k = if k.val = 0 then ys b i else 0) := by
  constructor
  · intro b i k
    have h2 : (2 * i.val) % 2 = 0 := by omega
    have h3 : (2 * i.val) / 2 = i.val := by omega
    simp only [combine, evenIdx, h2, if_true]
    congr 1
    exact Fin.ext h3
  · intro b i k
    have h2 : (2 * i.val + 1) % 2 = 1 := by omega
    have h3 : (2 * i.val + 1) / 2 = i.val := by omega
    simp only [combine, oddIdx, h2]
    norm_num
    split
    · congr 1
      exact Fin.ext h3
    · rfl

/-- Witness for C1 at B = n = d = 1: position 0 holds the feature value and
position 1 holds the label value. -/
theorem combine_interleaves_w :
    combine xs0 ys0 b0 (evenIdx k0) k0 = xs0 b0 k0 k0 ∧
    combine xs0 ys0 b0 (oddIdx k0) k0 = if k0.val = 0 then ys0 b0 k0 else 0 :=
  ⟨(combine_interleaves (by norm_num) xs0 ys0).1 b0 k0 k0,
   (combine_interleaves (by norm_num) xs0 ys0).2 b0 k0 k0⟩

/-- C10: the weight-tied model's `forward` accepts `add_inputs_embeds` but
never reads it, so two calls differing only in that argument agree. -/
theorem tying_forward_ignores_flag {B n d_in d : ℕ} (M : TyingModel B n d_in d)
    (xs : Tensor3 B n d_in) (ys : Tensor2 B n) (a1 a2 : Bool) :
    M.forward xs ys a1 = M.forward xs ys a2 := rfl

/-- The explicit `for` loop of the tying forward is `n_layer`-fold
self-composition of the single-layer backbone. -/
theorem tyingLoop_eq_iterate {B n d_in d : ℕ} (M : TyingModel B n d_in d) :
    ∀ (k : ℕ) (x : Tensor3 B (2 * n) d), tyingLoop M k x = M.backbone^[k] x := by
  intro k
  induction k with
  | zero => intro x; rfl
  | succ k ih =>
    intro x
    rw [tyingLoop, ih, Function.iterate_succ_apply]
    rfl

/-- C5: the weight-tied forward equals the spec-side description: one
single-layer backbone applied `n_layer` times, the output of application i the
sole input of application i+1 (the embeddings are not re-combined), and the
read-out applied exactly once, to the final application's output. -/
theorem tying_forward_is_iterated_backbone {B n d_in d : ℕ}
    (M : TyingModel B n d_in d) (xs : Tensor3 B n d_in) (ys : Tensor2 B n)
    (a : Bool) :
    M.forward xs ys a = tyingSpecForward M xs ys := by
  unfold TyingModel.forward tyingSpecForward
  simp only [tyingLoop_eq_iterate]

/-- C7: whenever state truncation is on, the state entering the combine step
has its first K token positions zeroed (all batches, all embedding
coordinates) and every later position unchanged, with K = `tokens_to_trunc`
when `fixed_truncate` and K = `⌈n_tokens * p_state⌉` (n_tokens = 2n, the
current token count) otherwise. -/
theorem truncate_zeroes_prefix {B n d_in d : ℕ} (M : LoopedModel B n d_in d)
    (ht : M.truncate_state = true) (output : Tensor3 B (2 * n) d)
    (b : Fin B) (t : Fin (2 * n)) (k : Fin d) :
    truncatedState M output b t k =
      if t.val < (if M.fixed_truncate then M.tokens_to_trunc
                  else Nat.ceil ((2 * n : ℚ) * M.p_state)) then 0
      else output b t k := by
  simp only [truncatedState, ht, if_true]
  split <;> split <;> ring

/-- Witness for C7: with fixed truncation of 1 token on an all-one state, the
leading position is zeroed. -/
theorem truncate_zeroes_prefix_w :
    Mtrunc.truncate_state = true ∧
    truncatedState Mtrunc r1 b0 t0 k0 =
      if t0.val < (if Mtrunc.fixed_truncate then Mtrunc.tokens_to_trunc
                   else Nat.ceil ((2 * 1 : ℚ) * Mtrunc.p_state)) then 0
      else r1 b0 t0 k0 :=
  ⟨rfl, truncate_zeroes_prefix Mtrunc rfl r1 b0 t0 k0⟩

/-- C6 counterexample: with input masking on, multiplicative loop function and
p = 1/2, the element at (0,0,0) of an all-zero embeddings tensor is kept by
the mask (its uniform draw 1 is ≥ p = 1/2, so the mask does not zero it), yet
the remap changes its value from 0 to 1 — so not only the mask-zeroed
elements are remapped, refuting "all other elements keep their original
values". -/
theorem mask_remap_changes_unmasked_zero :
    Mmask.p ≤ r1 b0 t0 k0 ∧ e0 b0 t0 k0 = 0 ∧
    maskedEmbeds Mmask e0 r1 b0 t0 k0 = 1 := by
  refine ⟨by norm_num [Mmask, M0loop, r1], rfl, ?_⟩
  norm_num [maskedEmbeds, Mmask, M0loop, dynamic_mask, e0, r1]

/-- C6 amended, for every iteration with input masking on, any loop function:
the Bernoulli mask zeroes an element exactly when its fresh uniform draw falls
below p and keeps it otherwise; with a non-multiplicative loop function the
masked embeddings are exactly that; with the multiplicative loop function an
element keeps its original value exactly when the mask keeps it (draw ≥ p) and
that value is nonzero, and every other element — zeroed by the mask or already
zero — comes out as 1. -/
theorem mask_zeroing_and_mult_remap {B n d_in d : ℕ} (M : LoopedModel B n d_in d)
    (hm : M.apply_input_mask = true)
    (embeds r : Tensor3 B (2 * n) d) (b : Fin B) (t : Fin (2 * n)) (k : Fin d) :
    dynamic_mask embeds M.p r b t k =
      (if M.p ≤ r b t k then embeds b t k else 0) ∧
    (M.loop_func ≠ "z=f(x*z)" →
      maskedEmbeds M embeds r b t k = dynamic_mask embeds M.p r b t k) ∧
    (M.loop_func = "z=f(x*z)" →
      maskedEmbeds M embeds r b t k =
        if M.p ≤ r b t k ∧ embeds b t k ≠ 0 then embeds b t k else 1) := by
  refine ⟨?_, ?_, ?_⟩
  · unfold dynamic_mask
    split <;> ring
  · intro hne
    simp [maskedEmbeds, hm, hne]
  · intro hl
    simp only [maskedEmbeds, hm, hl, if_true, dynamic_mask]
    by_cases hp : M.p ≤ r b t k
    · by_cases he : embeds b t k = 0 <;> simp [hp, he]
    · simp [hp]

/-- Witness for C6's amended statement at a concrete zero element of the
masking-enabled multiplicative model. -/
theorem mask_zeroing_and_mult_remap_w :
    dynamic_mask e0 Mmask.p r1 b0 t0 k0 =
      (if Mmask.p ≤ r1 b0 t0 k0 then e0 b0 t0 k0 else 0) ∧
    (Mmask.loop_func ≠ "z=f(x*z)" →
      maskedEmbeds Mmask e0 r1 b0 t0 k0 = dynamic_mask e0 Mmask.p r1 b0 t0 k0) ∧
    (Mmask.loop_func = "z=f(x*z)" →
      maskedEmbeds Mmask e0 r1 b0 t0 k0 =
        if Mmask.p ≤ r1 b0 t0 k0 ∧ e0 b0 t0 k0 ≠ 0 then e0 b0 t0 k0 else 1) :=
  mask_zeroing_and_mult_remap Mmask rfl e0 r1 b0 t0 k0

/-- C8: a `loop_func` outside the two supported strings makes the looped
forward raise `NotImplementedError` at initial-state selection (before any
iteration, for every `n_loop_start`, `n_loops`), and makes the per-iteration
combine step `f` raise `NotImplementedError` as well. -/
theorem looped_invalid_loop_func_errors {B n d_in d : ℕ}
    (M : LoopedModel B n d_in d)
    (h1 : M.loop_func ≠ "z=f(x+z)") (h2 : M.loop_func ≠ "z=f(x*z)")
    (xs : Tensor3 B n d_in) (ys : Tensor2 B n)
    (n_loop_start n_loops : ℕ) (rng : ℕ → Tensor3 B (2 * n) d)
    (output embeds r : Tensor3 B (2 * n) d) :
    loopedForward M xs ys n_loop_start n_loops rng = .error .notImplemented ∧
    loopedF M output embeds r = .error .notImplemented := by
  have hi : initState (B := B) (n := n) M = .error .notImplemented := by
    unfold initState
    rw [if_neg h1, if_neg h2]
  refine ⟨?_, ?_⟩
  · unfold loopedForward
    rw [hi]
  · unfold loopedF
    rw [if_neg h1, if_neg h2]

/-- Witness for C8: the unsupported string "z=g(x,z)". -/
theorem looped_invalid_loop_func_errors_w :
    loopedForward Mbad xs0 ys0 0 1 rng0 = .error .notImplemented ∧
    loopedF Mbad e0 e0 r1 = .error .notImplemented :=
  looped_invalid_loop_func_errors Mbad (by decide) (by decide)
    xs0 ys0 0 1 rng0 e0 e0 r1

/-- C4 counterexample: with `pred_type = "linear"`, constructing a
`TransformerModel` raises nothing — the `if/elif` in `__init__` has no `else`
and simply leaves `_read_out` unset — and `forward` then raises
`AttributeError` at `self._read_out(f_output)`, which is not a
NotImplemented error. -/
theorem unknown_pred_type_cex :
    TFModel.init "linear" w11 b1q tfBB w11 b1q w21 b2q = .ok MtfBad ∧
    MtfBad.forward xs0 ys0 false = .error (.attributeError "_read_out") ∧
    PyErr.attributeError "_read_out" ≠ PyErr.notImplemented := by
  refine ⟨?_, rfl, by decide⟩
  simp [TFModel.init, MtfBad]

/-- C4 amended: for every `pred_type` outside {regression, classification},
construction succeeds (returning a model with no read-out layer) and the
forward call raises an `AttributeError` for the missing `_read_out`, so the
`NotImplementedError` branch of `forward` is never reached. -/
theorem unknown_pred_type_init_ok_forward_attr {B n d_in d : ℕ}
    (pt : String) (h1 : pt ≠ "regression") (h2 : pt ≠ "classification")
    (riw : Fin d → Fin d_in → ℚ) (rib : Fin d → ℚ)
    (bb : Bool → Tensor3 B (2 * n) d → Tensor3 B (2 * n) d)
    (regW : Fin 1 → Fin d → ℚ) (regB : Fin 1 → ℚ)
    (clsW : Fin 2 → Fin d → ℚ) (clsB : Fin 2 → ℚ)
    (xs : Tensor3 B n d_in) (ys : Tensor2 B n) (a : Bool) :
    ∃ M : TFModel B n d_in d,
      TFModel.init pt riw rib bb regW regB clsW clsB = .ok M ∧
      M.forward xs ys a = .error (.attributeError "_read_out") := by
  refine ⟨{ pred_type := pt, read_in_w := riw, read_in_b := rib,
            backbone := bb, read_out := none }, ?_, rfl⟩
  simp [TFModel.init, h1, h2]

/-- Witness for C4's amended statement with the concrete string "linear". -/
theorem unknown_pred_type_init_ok_forward_attr_w :
    ∃ M : TFModel 1 1 1 1,
      TFModel.init "linear" w11 b1q tfBB w11 b1q w21 b2q = .ok M ∧
      M.forward xs0 ys0 false = .error (.attributeError "_read_out") :=
  unknown_pred_type_init_ok_forward_attr "linear" (by decide) (by decide)
    w11 b1q tfBB w11 b1q w21 b2q xs0 ys0 false

/-- Without input masking, the combine step never reads the random draw. -/
theorem loopedF_rng_irrel {B n d_in d : ℕ} (M : LoopedModel B n d_in d)
    (hm : M.apply_input_mask = false) (o e r r2 : Tensor3 B (2 * n) d) :
    loopedF M o e r = loopedF M o e r2 := by
  unfold loopedF
  rw [maskedEmbeds_off M hm e r, maskedEmbeds_off M hm e r2]

/-- Without input masking, the loop body never reads the random stream. -/
theorem loopGo_rng_irrel {B n d_in d : ℕ} (M : LoopedModel B n d_in d)
    (hm : M.apply_input_mask = false)
    (e : Tensor3 B (2 * n) d) (rng1 rng2 : ℕ → Tensor3 B (2 * n) d)
    (nls : ℕ) :
    ∀ (remaining idx : ℕ) (output : Tensor3 B (2 * n) d),
      loopGo M e rng1 nls remaining idx output =
      loopGo M e rng2 nls remaining idx output := by
  intro remaining
  induction remaining with
  | zero => intro idx output; rfl
  | succ rem ih =>
    intro idx output
    unfold loopGo
    rw [loopedF_rng_irrel M hm output e (rng1 idx) (rng2 idx)]
    cases loopedF M output e (rng2 idx) with
    | error err => rfl
    | ok output₂ =>
      simp only []
      by_cases hidx : idx < nls
      · simp only [if_pos hidx]
        exact ih (idx + 1) output₂
      · simp only [if_neg hidx]
        cases readOutDispatch M.read_out M.pred_type output₂ with
        | error err => rfl
        | ok y =>
          simp only []
          rw [ih (idx + 1) output₂]

/-- C9: with `apply_input_mask = False` and `truncate_state = False`, the
looped forward pass is a function of the weights and inputs alone — two calls
with identical weights and inputs agree whatever the random-number-generator
produces. -/
theorem looped_forward_deterministic {B n d_in d : ℕ}
    (M : LoopedModel B n d_in d)
    (hm : M.apply_input_mask = false) (ht : M.truncate_state = false)
    (xs : Tensor3 B n d_in) (ys : Tensor2 B n) (nls nl : ℕ)
    (rng1 rng2 : ℕ → Tensor3 B (2 * n) d) :
    loopedForward M xs ys nls nl rng1 = loopedForward M xs ys nls nl rng2 := by
  unfold loopedForward
  cases initState (B := B) (n := n) M with
  | error e => rfl
  | ok v => exact loopGo_rng_irrel M hm (embedsOf M xs ys) rng1 rng2 nls nl 0 v

/-- Witness for C9: the valid masked-off model with two distinct streams. -/
theorem looped_forward_deterministic_w :
    loopedForward M0loop xs0 ys0 1 3 rng0 =
    loopedForward M0loop xs0 ys0 1 3 (fun _ => e0) :=
  looped_forward_deterministic M0loop rfl rfl xs0 ys0 1 3 rng0 (fun _ => e0)

/-- C3: with both stochastic perturbations off, `n_loop_start = 0` and
`n_loops = 1`, the looped forward returns the singleton prediction computed by
`read_out` (with its extraction tail) on `backbone(embeds)` directly: the
initial state — all-zeros for the additive loop function, all-ones for the
multiplicative one — is the identity of the combine operation, so the first
iteration's combined input is exactly the embeddings. -/
theorem looped_first_iteration_identity {B n d_in d : ℕ}
    (M : LoopedModel B n d_in d)
    (hm : M.apply_input_mask = false) (ht : M.truncate_state = false)
    (hl : M.loop_func = "z=f(x+z)" ∨ M.loop_func = "z=f(x*z)")
    (xs : Tensor3 B n d_in) (ys : Tensor2 B n)
    (rng : ℕ → Tensor3 B (2 * n) d) :
    loopedForward M xs ys 0 1 rng =
      (readOutDispatch M.read_out M.pred_type
        (M.backbone (embedsOf M xs ys))).map (fun y => [y]) := by
  rcases hl with h | h
  · have hinit : initState (B := B) (n := n) M = .ok (fun _ _ _ => (0 : ℚ)) := by
      unfold initState
      rw [h, if_pos rfl]
    have hstep : loopedF M (fun _ _ _ => (0 : ℚ)) (embedsOf M xs ys) (rng 0) =
        .ok (M.backbone (embedsOf M xs ys)) := by
      unfold loopedF
      rw [maskedEmbeds_off M hm, truncatedState_off M ht, h, if_pos rfl]
      have harg :
          (fun b i k => (fun _ _ _ => (0 : ℚ)) b i k + embedsOf M xs ys b i k)
            = embedsOf M xs ys := by
        funext b i k
        show (0 : ℚ) + embedsOf M xs ys b i k = embedsOf M xs ys b i k
        exact zero_add _
      rw [harg]
    unfold loopedForward
    rw [hinit]
    unfold loopGo
    rw [hstep]
    cases hro : readOutDispatch M.read_out M.pred_type
        (M.backbone (embedsOf M xs ys)) with
    | error e => simp [Except.map, hro, loopGo]
    | ok y => simp [Except.map, hro, loopGo]
  · have hinit : initState (B := B) (n := n) M = .ok (fun _ _ _ => (1 : ℚ)) := by
      unfold initState
      rw [h, if_neg (by decide), if_pos rfl]
    have hstep : loopedF M (fun _ _ _ => (1 : ℚ)) (embedsOf M xs ys) (rng 0) =
        .ok (M.backbone (embedsOf M xs ys)) := by
      unfold loopedF
      rw [maskedEmbeds_off M hm, truncatedState_off M ht, h,
          if_neg (by decide), if_pos rfl]
      have harg :
          (fun b i k => (fun _ _ _ => (1 : ℚ)) b i k * embedsOf M xs ys b i k)
            = embedsOf M xs ys := by
        funext b i k
        show (1 : ℚ) * embedsOf M xs ys b i k = embedsOf M xs ys b i k
        exact one_mul _
      rw [harg]
    unfold loopedForward
    rw [hinit]
    unfold loopGo
    rw [hstep]
    cases hro : readOutDispatch M.read_out M.pred_type
        (M.backbone (embedsOf M xs ys)) with
    | error e => simp [Except.map, hro, loopGo]
    | ok y => simp [Except.map, hro, loopGo]

/-- Witness for C3: the valid additive model on the zero inputs. -/
theorem looped_first_iteration_identity_w :
    loopedForward M0loop xs0 ys0 0 1 rng0 =
      (readOutDispatch M0loop.read_out M0loop.pred_type
        (M0loop.backbone (embedsOf M0loop xs0 ys0))).map (fun y => [y]) :=
  looped_first_iteration_identity M0loop rfl rfl (Or.inl rfl) xs0 ys0 rng0

/-- A supported loop function makes `f` succeed, producing exactly the next
state of the trajectory `stateN`. -/
theorem loopedF_stateN {B n d_in d : ℕ} (M : LoopedModel B n d_in d)
    (hl : M.loop_func = "z=f(x+z)" ∨ M.loop_func = "z=f(x*z)")
    (e : Tensor3 B (2 * n) d) (rng : ℕ → Tensor3 B (2 * n) d) (k : ℕ) :
    loopedF M (stateN M e rng k) e (rng k) = .ok (stateN M e rng (k + 1)) := by
  have hex : ∃ t, loopedF M (stateN M e rng k) e (rng k) = .ok t := by
    rcases hl with h | h
    · exact ⟨_, by unfold loopedF; rw [h, if_pos rfl]⟩
    · exact ⟨_, by unfold loopedF; rw [h, if_neg (by decide), if_pos rfl]⟩
  rcases hex with ⟨t, htt⟩
  have hst : stateN M e rng (k + 1) = t := by
    simp only [stateN]
    rw [htt]
    rfl
  rw [htt, hst]

/-- A present read-out layer and a supported `pred_type` make the read-out
tail succeed. -/
theorem readOutDispatch_ok {B n d : ℕ} (ro? : Option (ReadOut d)) (pt : String)
    (hro : ro?.isSome = true)
    (hpt : pt = "regression" ∨ pt = "classification")
    (t : Tensor3 B (2 * n) d) :
    ∃ y, readOutDispatch (B := B) (n := n) ro? pt t = .ok y := by
  rcases Option.isSome_iff_exists.mp hro with ⟨ro, hro2⟩
  subst hro2
  rcases hpt with h | h <;> subst h
  · exact ⟨_, rfl⟩
  · exact ⟨_, rfl⟩

/-- Characterization of the prediction list built by the loop of the looped
forward pass, starting at iteration `idx` on the state trajectory: the loop
succeeds, records `remaining - (n_loop_start - idx)` predictions, and its j-th
recorded prediction is the read-out of the state after iteration
`max idx n_loop_start + j`. -/
theorem loopGo_char {B n d_in d : ℕ} (M : LoopedModel B n d_in d)
    (hl : M.loop_func = "z=f(x+z)" ∨ M.loop_func = "z=f(x*z)")
    (hro : M.read_out.isSome = true)
    (hpt : M.pred_type = "regression" ∨ M.pred_type = "classification")
    (e : Tensor3 B (2 * n) d) (rng : ℕ → Tensor3 B (2 * n) d) (nls : ℕ) :
    ∀ (remaining idx : ℕ),
      ∃ l : List (PredT B n),
        loopGo M e rng nls remaining idx (stateN M e rng idx) = .ok l ∧
        l.length = remaining - (nls - idx) ∧
        ∀ (j : ℕ) (hj : j < l.length),
          readOutDispatch M.read_out M.pred_type
              (stateN M e rng (max idx nls + j + 1)) =
            .ok (l.get ⟨j, hj⟩) := by
  intro remaining
  induction remaining with
  | zero =>
    intro idx
    exact ⟨[], rfl, by simp, fun j hj => absurd hj (by simp)⟩
  | succ rem ih =>
    intro idx
    rcases ih (idx + 1) with ⟨l, hgo, hlen, helt⟩
    by_cases hidx : idx < nls
    · refine ⟨l, ?_, by omega, ?_⟩
      · unfold loopGo
        rw [loopedF_stateN M hl e rng idx]
        simp only [if_pos hidx]
        exact hgo
      · intro j hj
        have he := helt j hj
        rw [show max (idx + 1) nls + j + 1 = max idx nls + j + 1 from by omega]
          at he
        exact he
    · rcases readOutDispatch_ok M.read_out M.pred_type hro hpt
        (stateN M e rng (idx + 1)) with ⟨y, hy⟩
      refine ⟨y :: l, ?_, ?_, ?_⟩
      · unfold loopGo
        rw [loopedF_stateN M hl e rng idx]
        simp only [if_neg hidx]
        rw [hy, hgo]
      · simp only [List.length_cons]
        omega
      · intro j hj
        rcases j with _ | j'
        · have he := hy
          rw [show idx + 1 = max idx nls + 0 + 1 from by omega] at he
          exact he
        · have hj' : j' < l.length := by
            simpa using Nat.lt_of_succ_lt_succ hj
          have he := helt j' hj'
          rw [show max (idx + 1) nls + j' + 1 = max idx nls + (j' + 1) + 1
                from by omega] at he
          exact he

/-- C2: for every looped forward call on a validly configured model, the
result is an ordered list of predictions of length exactly
`max 0 (n_loops - n_loop_start)` (as integers), whose j-th element is the
prediction recorded at iteration `n_loop_start + j` — i.e. the read-out of the
state after that iteration — with no prediction recorded for warm-up
iterations below `n_loop_start`. -/
theorem looped_forward_pred_list {B n d_in d : ℕ} (M : LoopedModel B n d_in d)
    (hl : M.loop_func = "z=f(x+z)" ∨ M.loop_func = "z=f(x*z)")
    (hro : M.read_out.isSome = true)
    (hpt : M.pred_type = "regression" ∨ M.pred_type = "classification")
    (xs : Tensor3 B n d_in) (ys : Tensor2 B n)
    (n_loop_start n_loops : ℕ) (rng : ℕ → Tensor3 B (2 * n) d) :
    ∃ l : List (PredT B n),
      loopedForward M xs ys n_loop_start n_loops rng = .ok l ∧
      (l.length : ℤ) = max 0 ((n_loops : ℤ) - (n_loop_start : ℤ)) ∧
      ∀ (j : ℕ) (hj : j < l.length),
        readOutDispatch M.read_out M.pred_type
            (stateN M (embedsOf M xs ys) rng (n_loop_start + j + 1)) =
          .ok (l.get ⟨j, hj⟩) := by
  have hinit : ∃ v, initState (B := B) (n := n) M = .ok v := by
    rcases hl with h | h
    · exact ⟨_, by unfold initState; rw [h, if_pos rfl]⟩
    · exact ⟨_, by unfold initState; rw [h, if_neg (by decide), if_pos rfl]⟩
  rcases hinit with ⟨v, hv⟩
  have hv0 : stateN M (embedsOf M xs ys) rng 0 = v := by
    simp only [stateN]
    rw [hv]
    rfl
  rcases loopGo_char M hl hro hpt (embedsOf M xs ys) rng n_loop_start
    n_loops 0 with ⟨l, hgo, hlen, helt⟩
  refine ⟨l, ?_, by omega, ?_⟩
  · unfold loopedForward
    rw [hv]
    rw [hv0] at hgo
    exact hgo
  · intro j hj
    have he := helt j hj
    rw [show max 0 n_loop_start + j + 1 = n_loop_start + j + 1 from by omega]
      at he
    exact he

/-- Witness for C2: the valid additive model, one warm-up iteration and three
total iterations. -/
theorem looped_forward_pred_list_w :
    ∃ l : List (PredT 1 1),
      loopedForward M0loop xs0 ys0 1 3 rng0 = .ok l ∧
      (l.length : ℤ) = max 0 ((3 : ℤ) - (1 : ℤ)) ∧
      ∀ (j : ℕ) (hj : j < l.length),
        readOutDispatch M0loop.read_out M0loop.pred_type
            (stateN M0loop (embedsOf M0loop xs0 ys0) rng0 (1 + j + 1)) =
          .ok (l.get ⟨j, hj⟩) :=
  looped_forward_pred_list M0loop (Or.inl rfl) rfl (Or.inl rfl)
    xs0 ys0 1 3 rng0

end LoopedTF
